import Mathlib

/-!
Verification development for the WeChat removal control-panel repository.

The development shallowly embeds the parts of the code that the checked
properties are about:

* `modules/task_types.py` — the entity dataclasses (`GroupThread`, `Suspect`,
  `RemovalPlan`) and the panel snapshot dataclass `PanelState` from
  `panel_state.py`.  Python `pathlib.Path` values are represented by their
  canonical string form; the constructor `Path(s)` is modelled by `pathNorm`.
* `panel_state.py` — the JSON (de)serialization helpers.  A serialized JSON
  object is modelled by a record whose optional fields stand for keys that may
  be absent from the file (`none` = key missing); `dict.get(k, default)`
  becomes `Option.getD`.  The `json.dumps`/`json.loads` text layer of
  `save_state`/`load_state` is the standard-library boundary and is not
  re-modelled.
* `modules/unread_scanner.py`, `modules/removal_precheck.py`,
  `modules/suspicious_detector.py`, `modules/group_classifier.py` — the pure
  helpers.  Where a helper starts with `json.loads` of agent output, the
  parser is passed in as an explicit oracle `String → Option _`
  (`none` models a raised `json.JSONDecodeError`).
* `control_panel.py` — every workflow button handler as a state transformer
  on `PanelState`, together with the step request it writes (if any), the
  report it surfaces, and the list of states it passes to `save_state`.
* `workflow/run_wechat_removal.py` — the step-mode worker: `process_request`
  and one iteration of `run_loop` as traces of channel-file writes.
-/

/-- `modules/task_types.py` `GroupThread` dataclass. -/
structure GroupThread where
  name : String
  thread_id : String
  unread : Bool
  is_group : Bool := true
deriving DecidableEq, Repr

/-- `modules/task_types.py` `Suspect` dataclass.  `avatar_path` holds the
canonical string of the `pathlib.Path` value (see `pathNorm`). -/
structure Suspect where
  sender_id : String
  sender_name : String
  avatar_path : String
  evidence_text : String
  thread_id : String
deriving DecidableEq, Repr

/-- `modules/task_types.py` `RemovalPlan` dataclass. -/
structure RemovalPlan where
  suspects : List Suspect := []
  confirmed : Bool := false
  note : Option String := none
deriving DecidableEq, Repr

/-- `panel_state.py` `PanelState` dataclass.  `current_thread_index` is a
`Nat` because the program only ever assigns `0` or increments it.  The
`step_logs` dict is an insertion-ordered association list. -/
structure PanelState where
  threads : List GroupThread := []
  unread_groups : List GroupThread := []
  current_thread_index : Nat := 0
  current_group_suspects : List Suspect := []
  current_group_plan : Option RemovalPlan := none
  all_suspects : List Suspect := []
  all_plans : List RemovalPlan := []
  suspects : List Suspect := []
  plan : Option RemovalPlan := none
  step_logs : List (String × String) := []
deriving DecidableEq, Repr

/-- Fresh state, as produced by `PanelState()` when no snapshot file exists. -/
def initialPanelState : PanelState := {}

/-- Split a character list at every slash (helper for `pathNorm`). -/
def splitSlash : List Char → List (List Char)
  | [] => [[]]
  | c :: cs =>
    if c = '/' then [] :: splitSlash cs
    else
      match splitSlash cs with
      | [] => [[c]]
      | g :: gs => (c :: g) :: gs

/-- Join path components with slashes (helper for `pathNorm`). -/
def joinSlash : List (List Char) → List Char
  | [] => []
  | [g] => g
  | g :: gs => g ++ '/' :: joinSlash gs

/-- Model of the `pathlib.Path` constructor applied to a POSIX-style string,
followed by `str(...)`: empty and `.` components are dropped, the remaining
components are re-joined with single slashes, a leading slash is kept, and
both the empty string and a string of only dots-and-slashes collapse to
`"."` (in particular `str(Path()) = str(Path("")) = "."`). -/
def pathNorm (s : String) : String :=
  let cs := s.data
  let isAbs : Bool := match cs with | '/' :: _ => true | _ => false
  let comps := (splitSlash cs).filter (fun c => c ≠ [] && c ≠ ['.'])
  let body := joinSlash comps
  if isAbs then String.mk ('/' :: body)
  else if body = [] then String.mk ['.']
  else String.mk body

/-- JSON record for one serialized `GroupThread`.  `name`, `thread_id` and
`unread` are accessed with `t["…"]` in `panel_state.py` (required keys);
`is_group` is accessed with `t.get("is_group", …)` so it may be absent. -/
structure ThreadJson where
  name : String
  thread_id : String
  unread : Bool
  is_group : Option Bool := none
deriving DecidableEq, Repr

/-- JSON record for one serialized `Suspect`: `sender_id` and `sender_name`
are required keys in `_deserialize_suspect`; the rest use `.get` defaults. -/
structure SuspectJson where
  sender_id : String
  sender_name : String
  avatar_path : Option String := none
  evidence_text : Option String := none
  thread_id : Option String := none
deriving DecidableEq, Repr

/-- JSON record for one serialized `RemovalPlan` (all fields via `.get`,
`suspects` defaulting to the empty list is folded into the plain list). -/
structure PlanJson where
  suspects : List SuspectJson := []
  confirmed : Option Bool := none
  note : Option String := none
deriving DecidableEq, Repr

/-- JSON object for a serialized `PanelState`; every field is read through
`data.get(…, default)` in `_deserialize_state`, so every field may be absent.
For `current_group_plan` and `plan`, `none` covers both an absent key and an
explicit JSON null. -/
structure StateJson where
  threads : Option (List ThreadJson) := none
  unread_groups : Option (List ThreadJson) := none
  current_thread_index : Option Nat := none
  current_group_suspects : Option (List SuspectJson) := none
  current_group_plan : Option PlanJson := none
  all_suspects : Option (List SuspectJson) := none
  all_plans : Option (List PlanJson) := none
  suspects : Option (List SuspectJson) := none
  plan : Option PlanJson := none
  step_logs : Option (List (String × String)) := none
deriving DecidableEq, Repr

/-- `panel_state.py` `_serialize_suspect`: emits every key;
`str(s.avatar_path)` is the identity on the canonical string. -/
def serialize_suspect (s : Suspect) : SuspectJson :=
  { sender_id := s.sender_id
    sender_name := s.sender_name
    avatar_path := some s.avatar_path
    evidence_text := some s.evidence_text
    thread_id := some s.thread_id }

/-- `panel_state.py` `_deserialize_suspect`: required `sender_id` and
`sender_name`, defaults for the rest; `Path(s.get("avatar_path", ""))`
is `pathNorm` of the defaulted string. -/
def deserialize_suspect (j : SuspectJson) : Suspect :=
  { sender_id := j.sender_id
    sender_name := j.sender_name
    avatar_path := pathNorm (j.avatar_path.getD "")
    evidence_text := j.evidence_text.getD ""
    thread_id := j.thread_id.getD "" }

/-- `panel_state.py` `_serialize_plan`. -/
def serialize_plan (p : RemovalPlan) : PlanJson :=
  { suspects := p.suspects.map serialize_suspect
    confirmed := some p.confirmed
    note := p.note }

/-- `panel_state.py` `_deserialize_plan`. -/
def deserialize_plan (j : PlanJson) : RemovalPlan :=
  { suspects := j.suspects.map deserialize_suspect
    confirmed := j.confirmed.getD false
    note := j.note }

/-- `dataclasses.asdict` on a `GroupThread`, as used by `_serialize_state`:
every key is emitted. -/
def serialize_thread (t : GroupThread) : ThreadJson :=
  { name := t.name, thread_id := t.thread_id, unread := t.unread
    is_group := some t.is_group }

/-- The `GroupThread(… is_group=t.get("is_group", True))` construction used
by `_deserialize_state` (for `threads` and `unread_groups`) and by the
manual-load dialog handlers in `control_panel.py`. -/
def thread_of_json (t : ThreadJson) : GroupThread :=
  { name := t.name, thread_id := t.thread_id, unread := t.unread
    is_group := t.is_group.getD true }

/-- `panel_state.py` `_serialize_state`: every key is written. -/
def serialize_state (st : PanelState) : StateJson :=
  { threads := some (st.threads.map serialize_thread)
    unread_groups := some (st.unread_groups.map serialize_thread)
    current_thread_index := some st.current_thread_index
    current_group_suspects := some (st.current_group_suspects.map serialize_suspect)
    current_group_plan := st.current_group_plan.map serialize_plan
    all_suspects := some (st.all_suspects.map serialize_suspect)
    all_plans := some (st.all_plans.map serialize_plan)
    suspects := some (st.suspects.map serialize_suspect)
    plan := st.plan.map serialize_plan
    step_logs := some st.step_logs }

/-- `panel_state.py` `_deserialize_state` with the `.get` defaults of the
source (`[]`, `0`, `None`, `{}`).  A serialized plan object always carries
its keys, so the Python falsiness test `if plan_data` coincides with the
`Option` match here. -/
def deserialize_state (j : StateJson) : PanelState :=
  { threads := (j.threads.getD []).map thread_of_json
    unread_groups := (j.unread_groups.getD []).map thread_of_json
    current_thread_index := j.current_thread_index.getD 0
    current_group_suspects := (j.current_group_suspects.getD []).map deserialize_suspect
    current_group_plan := j.current_group_plan.map deserialize_plan
    all_suspects := (j.all_suspects.getD []).map deserialize_suspect
    all_plans := (j.all_plans.getD []).map deserialize_plan
    suspects := (j.suspects.getD []).map deserialize_suspect
    plan := j.plan.map deserialize_plan
    step_logs := j.step_logs.getD [] }

/-- A suspect record whose `avatar_path` is a fixed point of `pathNorm`,
i.e. the canonical string of an actual `pathlib.Path` value.  Every suspect
the program builds has this property because the field is `Path`-typed. -/
def suspectNormalized (s : Suspect) : Prop :=
  pathNorm s.avatar_path = s.avatar_path

instance (s : Suspect) : Decidable (suspectNormalized s) := by
  unfold suspectNormalized; infer_instance

/-- All avatar paths stored anywhere in the state are canonical `Path`
strings (true of every state the program constructs, since the field is
`Path`-typed in Python). -/
def stateNormalized (st : PanelState) : Prop :=
  (∀ s ∈ st.current_group_suspects, suspectNormalized s) ∧
  (∀ s ∈ st.all_suspects, suspectNormalized s) ∧
  (∀ s ∈ st.suspects, suspectNormalized s) ∧
  (∀ p ∈ st.current_group_plan.toList, ∀ s ∈ p.suspects, suspectNormalized s) ∧
  (∀ p ∈ st.all_plans, ∀ s ∈ p.suspects, suspectNormalized s) ∧
  (∀ p ∈ st.plan.toList, ∀ s ∈ p.suspects, suspectNormalized s)

instance (st : PanelState) : Decidable (stateNormalized st) := by
  unfold stateNormalized; infer_instance

/-- `modules/unread_scanner.py` `filter_unread_groups`. -/
def filter_unread_groups (threads : List GroupThread) : List GroupThread :=
  threads.filter (fun t => t.is_group && t.unread)

/-- `modules/removal_precheck.py` `build_removal_plan` (value level). -/
def build_removal_plan (suspects : List Suspect) (note : Option String := none) :
    RemovalPlan :=
  { suspects := suspects, confirmed := false, note := note }

/-- A heap of Python list objects holding suspects; list-typed variables in
the source hold references (cell indices) into it.  Used to state object
identity (aliasing versus copying), which value-level lists cannot express. -/
def SuspectListHeap := List (List Suspect)

/-- Read the list object behind a reference. -/
def heapGet (h : SuspectListHeap) (r : Nat) : List Suspect :=
  (List.get? h r).getD []

/-- In-place mutation of the list object behind a reference. -/
def heapWrite (h : SuspectListHeap) (r : Nat) (v : List Suspect) : SuspectListHeap :=
  List.set h r v

/-- Reference-level rendering of `build_removal_plan`: the
`RemovalPlan(suspects=suspects, …)` dataclass constructor stores the very
list reference it was handed — the source has no `list(...)` copy here
(contrast `control_panel.py` line 1210, which does copy). -/
structure RemovalPlanRef where
  suspectsRef : Nat
  confirmed : Bool
  note : Option String
deriving DecidableEq, Repr

/-- `build_removal_plan` at the reference level. -/
def build_removal_plan_ref (suspects : Nat) (note : Option String := none) :
    RemovalPlanRef :=
  { suspectsRef := suspects, confirmed := false, note := note }

/-- Assign `logs[k] = v` on an insertion-ordered dict. -/
def logsInsert (logs : List (String × String)) (k v : String) :
    List (String × String) :=
  if logs.any (fun kv => kv.1 = k) then
    logs.map (fun kv => if kv.1 = k then (k, v) else kv)
  else logs ++ [(k, v)]

/-- `logs.get(k, d)` on an insertion-ordered dict. -/
def logsGet (logs : List (String × String)) (k d : String) : String :=
  ((logs.find? (fun kv => kv.1 = k)).map (fun kv => kv.2)).getD d

/-- One item of the `{"suspects": [...]}` payload parsed by
`extract_suspects`; every field is read with `.get(…, "")`. -/
structure SuspectItem where
  sender_id : Option String := none
  sender_name : Option String := none
  evidence_text : Option String := none
deriving DecidableEq, Repr

/-- The parsed JSON payload of `extract_suspects`; an absent `"suspects"`
key defaults to the empty list. -/
structure SuspectsPayload where
  suspects : List SuspectItem := []
deriving DecidableEq, Repr

/-- `modules/suspicious_detector.py` `extract_suspects`.  `jsonLoads` is the
`json.loads` oracle (`none` = `JSONDecodeError`).  The avatar path is the
last screenshot path, or `Path()` (canonical string `"."`) if none. -/
def extract_suspects (jsonLoads : String → Option SuspectsPayload)
    (thread : GroupThread) (text_output : String)
    (screenshot_paths : List String) : Option (List Suspect) :=
  (jsonLoads text_output).map (fun payload =>
    let avatar_path := screenshot_paths.getLast?.getD (pathNorm "")
    payload.suspects.map (fun item =>
      { sender_id := item.sender_id.getD ""
        sender_name := item.sender_name.getD ""
        avatar_path := avatar_path
        evidence_text := item.evidence_text.getD ""
        thread_id := thread.thread_id }))

/-- One item of the classification payload parsed by `parse_classification`;
every field is read with `.get` and coerced with `str(…)`/`bool(…)`. -/
structure ClassItem where
  name : Option String := none
  thread_id : Option String := none
  unread : Option Bool := none
  is_group : Option Bool := none
deriving DecidableEq, Repr

/-- The parsed `{"threads": [...]}` classification payload. -/
structure ClassPayload where
  threads : List ClassItem := []
deriving DecidableEq, Repr

/-- The thread built from one classification item in
`modules/group_classifier.py` `parse_classification`: note the `is_group`
default is `False` here. -/
def class_item_thread (item : ClassItem) : GroupThread :=
  { name := item.name.getD ""
    thread_id := item.thread_id.getD ""
    unread := item.unread.getD false
    is_group := item.is_group.getD false }

/-- `modules/group_classifier.py` `parse_classification` with the
`json.loads` oracle made explicit. -/
def parse_classification (jsonLoads : String → Option ClassPayload)
    (text_output : String) : Option (List GroupThread) :=
  (jsonLoads text_output).map (fun payload => payload.threads.map class_item_thread)

/-- The operator-visible outcome of one panel handler invocation: `ok` covers
the quiet success path (status returns to Ready), the others name the
message boxes and log lines the handler can surface. -/
inductive PanelReport where
  | ok
  | workflowNotRunning
  | missingData
  | allProcessed
  | parseError
  | groupComplete
  | workflowComplete
deriving DecidableEq, Repr

/-- A request written to the `.step_request` slot by
`_request_agent_step`: the step name, plus the `remove` suspect triples
(sender_id, sender_name, thread_id) or the `read_messages`
(thread_id, thread_name) pair when the step carries them. -/
structure StepRequest where
  step : String
  suspectsParam : List (String × String × String) := []
  threadParam : Option (String × String) := none
deriving DecidableEq, Repr

/-- Result of one panel handler: the new in-memory state, the surfaced
report, the channel request written (if any), and the list of states passed
to `save_state`, in order. -/
structure OpResult where
  state : PanelState
  report : PanelReport
  request : Option StepRequest := none
  saves : List PanelState := []
deriving DecidableEq, Repr

/-- `control_panel.py` `_advance_to_next_group` (lines 1203-1248): fold the
current group into the accumulators, rebuild the legacy merged plan when any
plan has accumulated, clear the ephemeral fields, bump the cursor, and
report either the next group or workflow completion. -/
def advance_to_next_group (st : PanelState) : PanelState × PanelReport :=
  let newAllSuspects := st.all_suspects ++ st.current_group_suspects
  let newAllPlans := st.all_plans ++ st.current_group_plan.toList
  let newLegacyPlan : Option RemovalPlan :=
    if newAllPlans = [] then st.plan
    else some { suspects := (newAllPlans.map (fun p => p.suspects)).flatten
                confirmed := true
                note := some ("Processed " ++ toString newAllPlans.length ++ " group(s)") }
  let newIndex := st.current_thread_index + 1
  let st1 : PanelState :=
    { st with
      all_suspects := newAllSuspects
      all_plans := newAllPlans
      suspects := newAllSuspects
      plan := newLegacyPlan
      current_thread_index := newIndex
      current_group_suspects := []
      current_group_plan := none }
  let remaining := st.unread_groups.length - newIndex
  (st1, if remaining > 0 then PanelReport.groupComplete else PanelReport.workflowComplete)

/-- `control_panel.py` `_run_filter` (lines 1033-1047): refuse on empty
`threads`, otherwise recompute `unread_groups` and reset the cursor.  Pure:
no channel request is written. -/
def run_filter (st : PanelState) : OpResult :=
  if st.threads = [] then { state := st, report := PanelReport.missingData }
  else
    let st1 := { st with unread_groups := filter_unread_groups st.threads
                         current_thread_index := 0 }
    { state := st1, report := PanelReport.ok, saves := [st1] }

/-- `control_panel.py` `_load_threads` (lines 700-729), successful dialog:
replace `threads` with the parsed records. -/
def load_threads (ts : List ThreadJson) (st : PanelState) : OpResult :=
  let st1 := { st with threads := ts.map thread_of_json }
  { state := st1, report := PanelReport.ok, saves := [st1] }

/-- `control_panel.py` `_load_groups` (lines 731-762), successful dialog:
replace `unread_groups` and reset the cursor to 0. -/
def load_groups (gs : List ThreadJson) (st : PanelState) : OpResult :=
  let st1 := { st with unread_groups := gs.map thread_of_json
                       current_thread_index := 0 }
  { state := st1, report := PanelReport.ok, saves := [st1] }

/-- `control_panel.py` `_load_read_results` (lines 764-807), successful
dialog: replace `unread_groups` with the parsed `threads` field and store
each read result under the per-thread log keys.  Note: unlike
`_load_groups`, the cursor is NOT reset.  `rs` carries
(thread_id, text, rendered screenshots JSON) per entry. -/
def load_read_results (ts : List ThreadJson)
    (rs : List (String × String × String)) (st : PanelState) : OpResult :=
  let newLogs := rs.foldl
    (fun logs r =>
      logsInsert (logsInsert logs ("read_" ++ r.1) r.2.1)
        ("read_" ++ r.1 ++ "_screenshots") r.2.2)
    st.step_logs
  let st1 := { st with unread_groups := ts.map thread_of_json, step_logs := newLogs }
  { state := st1, report := PanelReport.ok, saves := [st1] }

/-- `control_panel.py` `_load_suspects` (lines 809-839), successful dialog;
the JSON-to-`Suspect` parsing (required keys, `Path` construction) happens
in the dialog handler and any failure leaves the state untouched, so the
operation takes the already-built suspects. -/
def load_suspects (ss : List Suspect) (st : PanelState) : OpResult :=
  let st1 := { st with current_group_suspects := ss }
  { state := st1, report := PanelReport.ok, saves := [st1] }

/-- `control_panel.py` `_load_plan` (lines 841-881), successful dialog; as
with `load_suspects`, the dialog-level JSON parsing is elided and the
already-built plan is stored for the current group. -/
def load_plan (p : RemovalPlan) (st : PanelState) : OpResult :=
  let st1 := { st with current_group_plan := some p }
  { state := st1, report := PanelReport.ok, saves := [st1] }

/-- `control_panel.py` `_run_read_messages` (lines 1049-1074): requires the
worker, a non-empty group list and an in-bounds cursor; clears the ephemeral
per-group fields BEFORE issuing the `read_messages` request. -/
def run_read_messages (workerRunning : Bool) (st : PanelState) : OpResult :=
  if workerRunning = false then { state := st, report := PanelReport.workflowNotRunning }
  else if st.unread_groups = [] then { state := st, report := PanelReport.missingData }
  else if h : st.current_thread_index < st.unread_groups.length then
    let st1 := { st with current_group_suspects := [], current_group_plan := none }
    let thread := st.unread_groups.get ⟨st.current_thread_index, h⟩
    { state := st1, report := PanelReport.ok
      request := some { step := "read_messages"
                        threadParam := some (thread.thread_id, thread.name) }
      saves := [st1] }
  else { state := st, report := PanelReport.allProcessed }

/-- `control_panel.py` `_on_read_result` (lines 1076-1089): store the read
text and the rendered screenshots JSON under the per-thread log keys; the
cursor is left alone.  When the cursor is out of bounds the Python callback
raises IndexError before any mutation, leaving the state unchanged. -/
def on_read_result (text shotsJson : String) (st : PanelState) : OpResult :=
  if h : st.current_thread_index < st.unread_groups.length then
    let thread := st.unread_groups.get ⟨st.current_thread_index, h⟩
    let st1 := { st with
      step_logs := logsInsert
        (logsInsert st.step_logs ("read_" ++ thread.thread_id) text)
        ("read_" ++ thread.thread_id ++ "_screenshots") shotsJson }
    { state := st1, report := PanelReport.ok, saves := [st1] }
  else { state := st, report := PanelReport.ok }

/-- `control_panel.py` `_run_extract` (lines 1091-1125).  `loadsPayload` and
`loadsShots` are the `json.loads` oracles for the read text and the stored
screenshots list.  Returns `none` when the screenshots JSON fails to parse:
that `json.loads` call sits outside the `try`, so the exception escapes the
handler (no mutation had happened yet). -/
def run_extract (loadsPayload : String → Option SuspectsPayload)
    (loadsShots : String → Option (List String)) (st : PanelState) :
    Option OpResult :=
  if st.unread_groups = [] then
    some { state := st, report := PanelReport.missingData }
  else if h : st.current_thread_index < st.unread_groups.length then
    let thread := st.unread_groups.get ⟨st.current_thread_index, h⟩
    let text_output := logsGet st.step_logs ("read_" ++ thread.thread_id) "{}"
    if text_output = "{}" then
      some { state := st, report := PanelReport.missingData }
    else
      let shotsJson := logsGet st.step_logs ("read_" ++ thread.thread_id ++ "_screenshots") "[]"
      match loadsShots shotsJson with
      | none => none
      | some shotStrs =>
        let screenshot_paths := shotStrs.map pathNorm
        match extract_suspects loadsPayload thread text_output screenshot_paths with
        | none => some { state := st, report := PanelReport.parseError }
        | some suspects =>
          let st1 := { st with current_group_suspects := suspects }
          some { state := st1, report := PanelReport.ok, saves := [st1] }
  else some { state := st, report := PanelReport.allProcessed }

/-- `control_panel.py` `_run_build_plan` (lines 1127-1144): requires an
in-bounds cursor and non-empty `current_group_suspects`; wraps them in an
unconfirmed plan via `build_removal_plan`. -/
def run_build_plan (st : PanelState) : OpResult :=
  if _h : st.current_thread_index < st.unread_groups.length then
    if st.current_group_suspects = [] then
      { state := st, report := PanelReport.missingData }
    else
      let st1 := { st with
        current_group_plan := some (build_removal_plan st.current_group_suspects) }
      { state := st1, report := PanelReport.ok, saves := [st1] }
  else { state := st, report := PanelReport.allProcessed }

/-- `control_panel.py` `_run_removal` (lines 1146-1189): requires the worker,
an in-bounds cursor and a stored plan.  Empty plan or declined confirmation:
advance immediately with no channel request.  Confirmed: mark the plan
confirmed, persist, and write the `remove` request. -/
def run_removal (workerRunning confirm : Bool) (st : PanelState) : OpResult :=
  if workerRunning = false then { state := st, report := PanelReport.workflowNotRunning }
  else if _h : st.current_thread_index < st.unread_groups.length then
    match st.current_group_plan with
    | none => { state := st, report := PanelReport.missingData }
    | some plan =>
      if plan.suspects = [] then
        let adv := advance_to_next_group st
        { state := adv.1, report := adv.2, saves := [adv.1] }
      else if confirm = false then
        let adv := advance_to_next_group st
        { state := adv.1, report := adv.2, saves := [adv.1] }
      else
        let st1 := { st with current_group_plan := some { plan with confirmed := true } }
        { state := st1, report := PanelReport.ok
          request := some { step := "remove"
                            suspectsParam := plan.suspects.map
                              (fun s => (s.sender_id, s.sender_name, s.thread_id)) }
          saves := [st1] }
  else { state := st, report := PanelReport.allProcessed }

/-- `control_panel.py` `_on_removal_result` (lines 1191-1201): record the
worker text as the plan note and under `removal_<thread_id>`, persist, then
advance.  Out-of-bounds cursor: the Python callback raises IndexError before
any mutation. -/
def on_removal_result (text : String) (st : PanelState) : OpResult :=
  if h : st.current_thread_index < st.unread_groups.length then
    let thread := st.unread_groups.get ⟨st.current_thread_index, h⟩
    let st1 := { st with
      current_group_plan := st.current_group_plan.map (fun p => { p with note := some text })
      step_logs := logsInsert st.step_logs ("removal_" ++ thread.thread_id) text }
    let adv := advance_to_next_group st1
    { state := adv.1, report := adv.2, saves := [st1, adv.1] }
  else { state := st, report := PanelReport.ok }

/-- One operator action on the panel, with the external inputs it consumes:
dialog payloads for the manual loads, worker liveness and the confirmation
answer for the steps that ask, worker reply texts for the result callbacks,
and the `json.loads` outcomes for Extract. -/
inductive PanelOp where
  | filterOp
  | loadThreadsOp (ts : List ThreadJson)
  | loadGroupsOp (gs : List ThreadJson)
  | loadReadResultsOp (ts : List ThreadJson) (rs : List (String × String × String))
  | loadSuspectsOp (ss : List Suspect)
  | loadPlanOp (p : RemovalPlan)
  | readStartOp (worker : Bool)
  | readResultOp (text shotsJson : String)
  | extractOp (payloadParsed : Option SuspectsPayload) (shotsParsed : Option (List String))
  | buildPlanOp
  | removalOp (worker confirm : Bool)
  | removalResultOp (text : String)
deriving DecidableEq, Repr

/-- Dispatch one panel operation.  For `extractOp` the oracles are the
constant functions returning the recorded parse outcomes; the escaped
exception case (screenshots JSON unparsable) leaves the state unchanged and
surfaces nothing through the panel paths. -/
def applyOp : PanelOp → PanelState → OpResult
  | PanelOp.filterOp, st => run_filter st
  | PanelOp.loadThreadsOp ts, st => load_threads ts st
  | PanelOp.loadGroupsOp gs, st => load_groups gs st
  | PanelOp.loadReadResultsOp ts rs, st => load_read_results ts rs st
  | PanelOp.loadSuspectsOp ss, st => load_suspects ss st
  | PanelOp.loadPlanOp p, st => load_plan p st
  | PanelOp.readStartOp worker, st => run_read_messages worker st
  | PanelOp.readResultOp text shotsJson, st => on_read_result text shotsJson st
  | PanelOp.extractOp payloadParsed shotsParsed, st =>
    (run_extract (fun _ => payloadParsed) (fun _ => shotsParsed) st).getD
      { state := st, report := PanelReport.ok }
  | PanelOp.buildPlanOp, st => run_build_plan st
  | PanelOp.removalOp worker confirm, st => run_removal worker confirm st
  | PanelOp.removalResultOp text, st => on_removal_result text st

/-- Run a sequence of panel operations from a state. -/
def runOps : List PanelOp → PanelState → PanelState
  | [], st => st
  | op :: ops, st => runOps ops (applyOp op st).state

/-- The suspects an operation folds into `all_suspects`: the recorded
`current_group_suspects` when the operation advances, nothing otherwise. -/
def opContribution (op : PanelOp) (st : PanelState) : List Suspect :=
  match op with
  | PanelOp.removalOp worker confirm =>
    if worker = true ∧ st.current_thread_index < st.unread_groups.length then
      match st.current_group_plan with
      | some plan =>
        if plan.suspects = [] ∨ confirm = false then st.current_group_suspects else []
      | none => []
    else []
  | PanelOp.removalResultOp _ =>
    if st.current_thread_index < st.unread_groups.length then
      st.current_group_suspects
    else []
  | _ => []

/-- Contributions accumulated along a sequence of operations. -/
def seqContribution : List PanelOp → PanelState → List Suspect
  | [], _ => []
  | op :: ops, st => opContribution op st ++ seqContribution ops (applyOp op st).state

/-- The documented cursor invariant: the index never exceeds the group-list
length (the lower bound is the `Nat` type, matching a field that is only
ever zeroed or incremented). -/
def cursorInv (st : PanelState) : Prop :=
  st.current_thread_index ≤ st.unread_groups.length

instance (st : PanelState) : Decidable (cursorInv st) := by
  unfold cursorInv; infer_instance

/-- The structured result a step handler writes on success (`{"text": …,
"screenshots": […]}`). -/
structure AgentResult where
  text : String
  screenshots : List String
deriving DecidableEq, Repr

/-- One write to a Step Channel file by the worker: a status-slot write, a
structured result payload (`_write_result`), or a plain-text error payload
(`_write_error`, which also covers the traceback-bearing exception text). -/
inductive ChannelWrite where
  | status (s : String)
  | resultOk (r : AgentResult)
  | resultErr (msg : String)
deriving DecidableEq, Repr

/-- Is this write a result-slot write (of either flavour)? -/
def isResultWrite : ChannelWrite → Bool
  | ChannelWrite.resultOk _ => true
  | ChannelWrite.resultErr _ => true
  | ChannelWrite.status _ => false

/-- Is this write a terminal status-slot write? -/
def isTerminalStatus : ChannelWrite → Bool
  | ChannelWrite.status s => s = "complete" || s = "error"
  | _ => false

/-- A parsed `.step_request` payload; `step` is read with
`request.get("step", "")` so it may be absent. -/
structure StepRequestMsg where
  step : Option String := none
deriving DecidableEq, Repr

/-- Does `StepModeRunner.process_request` have a handler for this step? -/
def handler_known (step : String) : Bool :=
  step = "classify" || step = "read_messages" || step = "remove"

/-- `workflow/run_wechat_removal.py` `StepModeRunner.process_request`
(lines 291-311) as the ordered trace of channel writes it performs.
`outcome` stands for the awaited agent/vision call inside the handler:
`Except.ok` is its returned text and screenshots, `Except.error` a raised
exception message (the Python error text carries the exception type and
traceback; we keep the message abstract).  Each handler writes its result
payload and only then the `complete` status; `_write_error` likewise writes
the message and only then the `error` status; `running` is written before
the handler is entered. -/
def process_request (request : StepRequestMsg)
    (outcome : Except String AgentResult) : List ChannelWrite :=
  let step := request.step.getD ""
  ChannelWrite.status "running" ::
    (if handler_known step then
      match outcome with
      | Except.ok r => [ChannelWrite.resultOk r, ChannelWrite.status "complete"]
      | Except.error e => [ChannelWrite.resultErr e, ChannelWrite.status "error"]
    else
      [ChannelWrite.resultErr ("Unknown step: " ++ step), ChannelWrite.status "error"])

/-- One worker-side event: deleting the request file, or a channel write. -/
inductive WorkerEvent where
  | clearRequest
  | write (w : ChannelWrite)
deriving DecidableEq, Repr

/-- One iteration of `StepModeRunner.run_loop` (lines 329-359), given the
current request-file content (`none` = file absent), the `json.loads`
oracle for the request text (`Except.error e` = `JSONDecodeError` with
message `e`), and the handler outcome.  On a decode error the request file
is cleared and `Invalid request JSON: …` is written as an error; on success
the request is cleared first and then processed. -/
def run_loop_iteration (requestText : Option String)
    (parseReq : String → Except String StepRequestMsg)
    (outcome : Except String AgentResult) : List WorkerEvent :=
  match requestText with
  | none => []
  | some txt =>
    match parseReq txt with
    | Except.error e =>
      [WorkerEvent.clearRequest,
       WorkerEvent.write (ChannelWrite.resultErr ("Invalid request JSON: " ++ e)),
       WorkerEvent.write (ChannelWrite.status "error")]
    | Except.ok req =>
      WorkerEvent.clearRequest :: (process_request req outcome).map WorkerEvent.write

/-- ASCII whitespace stripped by Python `str.strip()` (the subset relevant
to status-file contents). -/
def isPySpace (c : Char) : Bool :=
  c = ' ' || c = '\t' || c = '\n' || c = '\r' || c = '\x0b' || c = '\x0c'

/-- Model of Python `str.strip()`. -/
def stripStr (s : String) : String :=
  String.mk (((s.data.dropWhile isPySpace).reverse.dropWhile isPySpace).reverse)

/-- Outcome of one observation of the status/result files by the polling
loop in `_poll_agent_result`: keep polling, deliver a parsed result (both
files deleted, callback invoked), surface a worker-reported error (both
files deleted, `_on_agent_error` invoked), or crash on an unhandled
exception (nothing deleted, nothing surfaced through the panel paths). -/
inductive PollOutcome where
  | keepPolling
  | delivered (result : AgentResult)
  | agentError (msg : String)
  | crashedUnhandled
deriving DecidableEq, Repr

/-- `control_panel.py` `_poll_agent_result`, one cycle of the inner `poll`
loop (lines 962-999).  `jsonLoads` is the `json.loads` oracle for the
result text (`none` = `JSONDecodeError`).  Note the source has no
try/except around `json.loads(result_text)`: a parse failure under status
`complete` escapes the polling thread before the `unlink` calls, so the
files survive and no error reaches the operator. -/
def poll_cycle (jsonLoads : String → Option AgentResult)
    (statusText : Option String) (resultText : Option String) : PollOutcome :=
  match statusText with
  | none => PollOutcome.keepPolling
  | some s0 =>
    let s := stripStr s0
    if s = "running" then PollOutcome.keepPolling
    else if s = "complete" then
      match resultText with
      | some rt =>
        match jsonLoads rt with
        | some r => PollOutcome.delivered r
        | none => PollOutcome.crashedUnhandled
      | none =>
        PollOutcome.keepPolling
    else if s = "error" then
      PollOutcome.agentError (resultText.getD "Unknown error")
    else PollOutcome.keepPolling

/-- Does this poll outcome delete the result and status files? -/
def poll_deletes_files : PollOutcome → Bool
  | PollOutcome.delivered _ => true
  | PollOutcome.agentError _ => true
  | _ => false

/-- Does this poll outcome surface a failure to the operator
(`_on_agent_error`)? -/
def poll_surfaces_failure : PollOutcome → Bool
  | PollOutcome.agentError _ => true
  | _ => false

/-- A concrete suspect used in witnesses and counterexamples. -/
def sampleSuspect : Suspect :=
  { sender_id := "wx1", sender_name := "Alice", avatar_path := "caps/reader_g1_0.png"
    evidence_text := "essay ads", thread_id := "g1" }

/-- A second concrete suspect. -/
def sampleSuspect2 : Suspect :=
  { sender_id := "wx2", sender_name := "Bob", avatar_path := "caps/reader_g1_1.png"
    evidence_text := "scam link", thread_id := "g1" }

/-- A concrete group-thread JSON record. -/
def sampleGroupJson : ThreadJson :=
  { name := "Group One", thread_id := "g1", unread := true, is_group := some true }

/-- The concrete group thread it denotes. -/
def sampleGroup : GroupThread :=
  { name := "Group One", thread_id := "g1", unread := true, is_group := true }

/-- Serializing then deserializing one suspect is the identity whenever its
avatar path is a canonical `Path` string. -/
theorem suspect_roundtrip (s : Suspect) (h : suspectNormalized s) :
    deserialize_suspect (serialize_suspect s) = s := by
  cases s with
  | mk sid sname apath etext tid =>
    simp only [deserialize_suspect, serialize_suspect, Option.getD_some, Suspect.mk.injEq]
    simpa using h

/-- List version of `suspect_roundtrip`. -/
theorem suspect_list_roundtrip (l : List Suspect) (h : ∀ s ∈ l, suspectNormalized s) :
    (l.map serialize_suspect).map deserialize_suspect = l := by
  induction l with
  | nil => rfl
  | cons x xs ih =>
    simp only [List.map_cons, List.cons.injEq]
    exact ⟨suspect_roundtrip x (h x (List.mem_cons_self x xs)),
           ih (fun s hs => h s (List.mem_cons_of_mem x hs))⟩

/-- Serializing then deserializing one thread is the identity. -/
theorem thread_roundtrip (t : GroupThread) :
    thread_of_json (serialize_thread t) = t := by
  cases t; rfl

/-- List version of `thread_roundtrip`. -/
theorem thread_list_roundtrip (l : List GroupThread) :
    (l.map serialize_thread).map thread_of_json = l := by
  induction l with
  | nil => rfl
  | cons x xs ih =>
    simp only [List.map_cons, List.cons.injEq]
    exact ⟨thread_roundtrip x, ih⟩

/-- Serializing then deserializing one plan is the identity whenever its
suspects carry canonical paths. -/
theorem plan_roundtrip (p : RemovalPlan) (h : ∀ s ∈ p.suspects, suspectNormalized s) :
    deserialize_plan (serialize_plan p) = p := by
  cases p with
  | mk sus conf note =>
    simp only [deserialize_plan, serialize_plan, Option.getD_some, RemovalPlan.mk.injEq]
    simpa using suspect_list_roundtrip sus h

/-- List version of `plan_roundtrip`. -/
theorem plan_list_roundtrip (l : List RemovalPlan)
    (h : ∀ p ∈ l, ∀ s ∈ p.suspects, suspectNormalized s) :
    (l.map serialize_plan).map deserialize_plan = l := by
  induction l with
  | nil => rfl
  | cons x xs ih =>
    simp only [List.map_cons, List.cons.injEq]
    exact ⟨plan_roundtrip x (h x (List.mem_cons_self x xs)),
           ih (fun p hp => h p (List.mem_cons_of_mem x hp))⟩

/-- Optional-plan version of `plan_roundtrip`. -/
theorem plan_opt_roundtrip (o : Option RemovalPlan)
    (h : ∀ p ∈ o.toList, ∀ s ∈ p.suspects, suspectNormalized s) :
    (o.map serialize_plan).map deserialize_plan = o := by
  cases o with
  | none => rfl
  | some p =>
    show some (deserialize_plan (serialize_plan p)) = some p
    exact congrArg some (plan_roundtrip p (h p (by simp [Option.toList])))

/-- Writing a heap cell through a reference is visible to every holder of
that reference. -/
theorem heapWrite_heapGet (h : SuspectListHeap) (r : Nat) (v : List Suspect)
    (hr : r < h.length) : heapGet (heapWrite h r v) r = v := by
  induction h generalizing r with
  | nil => simp at hr
  | cons x xs ih =>
    cases r with
    | zero => rfl
    | succ n =>
      have : n < xs.length := by simpa using hr
      simpa [heapGet, heapWrite, List.set, List.get?] using ih n this

/-- In a three-write trace `running, result, terminal-status`, every
terminal status write is preceded by a result write. -/
theorem trace3_commit (w : ChannelWrite) (t : String) (hw : isResultWrite w = true) :
    ∀ i wi, ([ChannelWrite.status "running", w, ChannelWrite.status t].get? i) = some wi →
      isTerminalStatus wi = true →
      ∃ j wj, j < i ∧
        ([ChannelWrite.status "running", w, ChannelWrite.status t].get? j) = some wj ∧
        isResultWrite wj = true := by
  intro i wi hi hterm
  match i with
  | 0 =>
    simp only [List.get?, Option.some.injEq] at hi
    subst hi
    simp [isTerminalStatus] at hterm
  | 1 =>
    simp only [List.get?, Option.some.injEq] at hi
    subst hi
    cases w with
    | status s => simp [isResultWrite] at hw
    | resultOk r => simp [isTerminalStatus] at hterm
    | resultErr m => simp [isTerminalStatus] at hterm
  | 2 => exact ⟨1, w, by omega, rfl, hw⟩
  | (n+3) => simp [List.get?] at hi

/-- The advanced state accumulates the recorded per-group suspects. -/
theorem advance_all_suspects (st : PanelState) :
    (advance_to_next_group st).1.all_suspects
      = st.all_suspects ++ st.current_group_suspects := rfl

/-- Advancing bumps the cursor by exactly one. -/
theorem advance_index (st : PanelState) :
    (advance_to_next_group st).1.current_thread_index
      = st.current_thread_index + 1 := rfl

/-- Advancing never touches the group list. -/
theorem advance_groups (st : PanelState) :
    (advance_to_next_group st).1.unread_groups = st.unread_groups := rfl

/-- The advance report is `workflowComplete` exactly when no group remains. -/
theorem advance_report (st : PanelState) :
    (advance_to_next_group st).2
      = if st.unread_groups.length - (st.current_thread_index + 1) > 0
        then PanelReport.groupComplete else PanelReport.workflowComplete := rfl

/-- `run_extract` never touches the accumulators, the cursor or the group
list, and never reports an advance. -/
theorem run_extract_preserves (f : String → Option SuspectsPayload)
    (g : String → Option (List String)) (st : PanelState) (r : OpResult)
    (h : run_extract f g st = some r) :
    r.state.all_suspects = st.all_suspects
    ∧ r.state.current_thread_index = st.current_thread_index
    ∧ r.state.unread_groups = st.unread_groups
    ∧ r.report ≠ PanelReport.workflowComplete := by
  unfold run_extract at h
  split at h
  · simp only [Option.some.injEq] at h
    subst h
    exact ⟨rfl, rfl, rfl, fun hh => PanelReport.noConfusion hh⟩
  · split at h
    · dsimp only at h
      split at h
      · simp only [Option.some.injEq] at h
        subst h
        exact ⟨rfl, rfl, rfl, fun hh => PanelReport.noConfusion hh⟩
      · split at h
        · exact absurd h (by simp)
        · split at h
          · simp only [Option.some.injEq] at h
            subst h
            exact ⟨rfl, rfl, rfl, fun hh => PanelReport.noConfusion hh⟩
          · simp only [Option.some.injEq] at h
            subst h
            exact ⟨rfl, rfl, rfl, fun hh => PanelReport.noConfusion hh⟩
    · simp only [Option.some.injEq] at h
      subst h
      exact ⟨rfl, rfl, rfl, fun hh => PanelReport.noConfusion hh⟩

/-- Every panel operation extends `all_suspects` exactly by its advance
contribution — in particular, already-appended entries are never removed or
reordered. -/
theorem applyOp_all_suspects (op : PanelOp) (st : PanelState) :
    (applyOp op st).state.all_suspects = st.all_suspects ++ opContribution op st := by
  cases op with
  | filterOp =>
    simp only [applyOp, run_filter, opContribution]
    split <;> simp
  | loadThreadsOp ts => simp [applyOp, load_threads, opContribution]
  | loadGroupsOp gs => simp [applyOp, load_groups, opContribution]
  | loadReadResultsOp ts rs => simp [applyOp, load_read_results, opContribution]
  | loadSuspectsOp ss => simp [applyOp, load_suspects, opContribution]
  | loadPlanOp p => simp [applyOp, load_plan, opContribution]
  | readStartOp worker =>
    simp only [applyOp, run_read_messages, opContribution]
    split
    · simp
    · split
      · simp
      · split
        · simp
        · simp
  | readResultOp text sj =>
    simp only [applyOp, on_read_result, opContribution]
    split <;> simp
  | extractOp pp sp =>
    simp only [applyOp, opContribution]
    cases hre : run_extract (fun _ => pp) (fun _ => sp) st with
    | none => simp [hre]
    | some r => simp [hre, (run_extract_preserves _ _ _ _ hre).1]
  | buildPlanOp =>
    simp only [applyOp, run_build_plan, opContribution]
    split
    · split <;> simp
    · simp
  | removalOp worker confirm =>
    cases worker with
    | false => simp [applyOp, run_removal, opContribution]
    | true =>
      simp only [applyOp, run_removal, opContribution]
      rw [if_neg (fun hh => Bool.noConfusion hh)]
      split
      · rename_i h
        cases hplan : st.current_group_plan with
        | none => simp [hplan, h]
        | some plan =>
          by_cases hs : plan.suspects = []
          · simp [hplan, hs, h, advance_to_next_group]
          · cases confirm with
            | false => simp [hplan, hs, h, advance_to_next_group]
            | true => simp [hplan, hs, h]
      · rename_i h
        simp [h]
  | removalResultOp text =>
    simp only [applyOp, on_removal_result, opContribution]
    split
    · rename_i h
      simp [h, advance_to_next_group]
    · rename_i h
      simp [h]

/-- Over any operation sequence, `all_suspects` grows exactly by the
concatenation of the per-advance contributions. -/
theorem runOps_all_suspects (ops : List PanelOp) (st : PanelState) :
    (runOps ops st).all_suspects = st.all_suspects ++ seqContribution ops st := by
  induction ops generalizing st with
  | nil => simp [runOps, seqContribution]
  | cons op ops ih =>
    show (runOps ops (applyOp op st).state).all_suspects = _
    rw [ih, applyOp_all_suspects, seqContribution, List.append_assoc]

/-- C9: a thread record that lacks the `is_group` key is defaulted
differently by the two entry points — snapshot deserialization
(`_deserialize_state`, hence `load_state`) defaults it to `True`, while
`parse_classification` defaults it to `False`; a thread whose flag was
dropped from the snapshot is treated as a group after a restart but as a
non-group when freshly classified. -/
theorem C9_is_group_default_disagreement :
    ∀ (name tid : String) (unread : Bool),
      (thread_of_json { name := name, thread_id := tid, unread := unread, is_group := none }).is_group = true
      ∧ parse_classification
          (fun _ => some { threads :=
            [{ name := some name, thread_id := some tid, unread := some unread, is_group := none }] })
          "x"
        = some [{ name := name, thread_id := tid, unread := unread, is_group := false }] := by
  intro name tid unread
  exact ⟨rfl, rfl⟩

/-- C8: `Filter` is a pure computation that keeps exactly the unread group
threads in order, resets the cursor to 0, writes no worker request, and is
refused on an empty thread list; on the concrete input
g1 (group, unread), c1 (individual, unread), g2 (group, read) it yields
exactly g1. -/
theorem C8_filter_unread_groups :
    (∀ st : PanelState, st.threads = [] →
      run_filter st = { state := st, report := PanelReport.missingData })
    ∧ (∀ st : PanelState, st.threads ≠ [] →
      (run_filter st).state
        = { st with unread_groups := st.threads.filter (fun t => t.is_group && t.unread)
                    current_thread_index := 0 }
      ∧ List.Sublist (run_filter st).state.unread_groups st.threads
      ∧ (∀ t, t ∈ (run_filter st).state.unread_groups
              ↔ t ∈ st.threads ∧ t.is_group = true ∧ t.unread = true)
      ∧ (run_filter st).request = none)
    ∧ (run_filter { initialPanelState with threads :=
        [{ name := "g1", thread_id := "g1", unread := true, is_group := true },
         { name := "c1", thread_id := "c1", unread := true, is_group := false },
         { name := "g2", thread_id := "g2", unread := false, is_group := true }] }).state.unread_groups
      = [{ name := "g1", thread_id := "g1", unread := true, is_group := true }] := by
  refine ⟨?_, ?_, by decide⟩
  · intro st h
    simp [run_filter, h]
  · intro st h
    refine ⟨by simp [run_filter, h, filter_unread_groups], ?_, ?_, by simp [run_filter, h]⟩
    · simp only [run_filter, if_neg h, filter_unread_groups]
      exact List.filter_sublist st.threads
    · intro t
      simp [run_filter, h, filter_unread_groups, List.mem_filter]

/-- C8 witness: the refusal branch at the fresh empty state, and the
sublist fact at the concrete three-thread state. -/
theorem C8_filter_unread_groups_witness :
    run_filter initialPanelState
      = { state := initialPanelState, report := PanelReport.missingData }
    ∧ List.Sublist
        (run_filter { initialPanelState with threads := [sampleGroup] }).state.unread_groups
        ({ initialPanelState with threads := [sampleGroup] } : PanelState).threads :=
  ⟨C8_filter_unread_groups.1 initialPanelState rfl,
   (C8_filter_unread_groups.2.1 { initialPanelState with threads := [sampleGroup] }
     (by decide)).2.1⟩

/-- C6 (amended): the Plan step is refused with a missing-data report when
`current_group_suspects` is empty and otherwise stores an unconfirmed
`RemovalPlan` holding `current_group_suspects` itself — in Python the very
same list object, not a copy: at the reference level the constructed plan
keeps the reference it was handed, so an in-place mutation through either
holder is visible through the other. -/
theorem C6_plan_wraps_current_suspects :
    (∀ st : PanelState, st.current_thread_index < st.unread_groups.length →
      st.current_group_suspects = [] →
      run_build_plan st = { state := st, report := PanelReport.missingData })
    ∧ (∀ st : PanelState, st.current_thread_index < st.unread_groups.length →
      st.current_group_suspects ≠ [] →
      (run_build_plan st).state.current_group_plan
        = some { suspects := st.current_group_suspects, confirmed := false, note := none })
    ∧ (∀ (r : Nat) (note : Option String),
        (build_removal_plan_ref r note).suspectsRef = r
        ∧ (build_removal_plan_ref r note).confirmed = false)
    ∧ (∀ (h : SuspectListHeap) (r : Nat) (v : List Suspect), r < h.length →
        heapGet (heapWrite h (build_removal_plan_ref r none).suspectsRef v) r = v) := by
  refine ⟨?_, ?_, fun r note => ⟨rfl, rfl⟩, fun h r v hr => heapWrite_heapGet h r v hr⟩
  · intro st hidx hempty
    simp [run_build_plan, hidx, hempty]
  · intro st hidx hne
    simp [run_build_plan, hidx, hne, build_removal_plan]

/-- C6 counterexample: the claim asserts the plan suspects list is a
DISTINCT list so that mutating one does not alter the other; but the plan
built from reference 0 holds reference 0 itself, and an in-place write
through the plan reference changes what `current_group_suspects`
(reference 0) reads. -/
theorem C6_counterexample_alias :
    (build_removal_plan_ref 0 none).suspectsRef = 0
    ∧ heapGet
        (heapWrite [[sampleSuspect]] (build_removal_plan_ref 0 none).suspectsRef
          [sampleSuspect, sampleSuspect2]) 0
      ≠ [sampleSuspect] := by
  exact ⟨rfl, by decide⟩

/-- C6 witness: the refusal at a concrete state with an empty suspect list,
and the stored plan at a concrete state with one suspect. -/
theorem C6_plan_wraps_current_suspects_witness :
    run_build_plan { initialPanelState with unread_groups := [sampleGroup] }
      = { state := { initialPanelState with unread_groups := [sampleGroup] },
          report := PanelReport.missingData }
    ∧ (run_build_plan { initialPanelState with
                        unread_groups := [sampleGroup]
                        current_group_suspects := [sampleSuspect] }).state.current_group_plan
      = some { suspects := [sampleSuspect], confirmed := false, note := none }
    ∧ heapGet (heapWrite [[sampleSuspect]] (build_removal_plan_ref 0 none).suspectsRef
        [sampleSuspect2]) 0 = [sampleSuspect2] :=
  ⟨C6_plan_wraps_current_suspects.1 _ (by decide) rfl,
   C6_plan_wraps_current_suspects.2.1 _ (by decide) (by decide),
   C6_plan_wraps_current_suspects.2.2.2 [[sampleSuspect]] 0 [sampleSuspect2] (by decide)⟩

/-- C7 (amended): with the worker alive, the cursor in bounds and a stored
plan whose suspects list is empty, `Remove` writes no channel request and
advances the cursor by exactly 1; the contribution appended to
`all_suspects` at that advance is the recorded `current_group_suspects`
(empty exactly when that list is empty — the plan being empty does not by
itself make the contribution empty). -/
theorem C7_empty_plan_skip :
    ∀ (st : PanelState) (confirm : Bool) (p : RemovalPlan),
      st.current_thread_index < st.unread_groups.length →
      st.current_group_plan = some p → p.suspects = [] →
      (run_removal true confirm st).request = none
      ∧ (run_removal true confirm st).state.current_thread_index
          = st.current_thread_index + 1
      ∧ (run_removal true confirm st).state.all_suspects
          = st.all_suspects ++ st.current_group_suspects := by
  intro st confirm p hidx hplan hempty
  simp [run_removal, hidx, hplan, hempty, advance_to_next_group]

/-- C7 counterexample: from the fresh state, load one group, manually load
one suspect for the current group, manually load an empty plan, then run
Remove with the worker alive.  The step writes no request and advances, but
the contribution appended to `all_suspects` is the non-empty
`current_group_suspects` — the claim says it is always empty. -/
theorem C7_counterexample_nonempty_contribution :
    (runOps [PanelOp.loadGroupsOp [sampleGroupJson],
             PanelOp.loadSuspectsOp [sampleSuspect],
             PanelOp.loadPlanOp { suspects := [], confirmed := false, note := some "" },
             PanelOp.removalOp true true] initialPanelState).all_suspects
      = [sampleSuspect]
    ∧ (runOps [PanelOp.loadGroupsOp [sampleGroupJson],
               PanelOp.loadSuspectsOp [sampleSuspect],
               PanelOp.loadPlanOp { suspects := [], confirmed := false, note := some "" }]
         initialPanelState).all_suspects = []
    ∧ (applyOp (PanelOp.removalOp true true)
        (runOps [PanelOp.loadGroupsOp [sampleGroupJson],
                 PanelOp.loadSuspectsOp [sampleSuspect],
                 PanelOp.loadPlanOp { suspects := [], confirmed := false, note := some "" }]
           initialPanelState)).request = none := by
  refine ⟨by decide, by decide, by decide⟩

/-- C7 witness: the amended statement at a concrete state with one group,
one recorded suspect and an empty stored plan. -/
theorem C7_empty_plan_skip_witness :
    (run_removal true true { initialPanelState with
        unread_groups := [sampleGroup]
        current_group_suspects := [sampleSuspect]
        current_group_plan := some { suspects := [], confirmed := false, note := none } }).request
      = none
    ∧ (run_removal true true { initialPanelState with
        unread_groups := [sampleGroup]
        current_group_suspects := [sampleSuspect]
        current_group_plan := some { suspects := [], confirmed := false, note := none } }).state.current_thread_index
      = 0 + 1
    ∧ (run_removal true true { initialPanelState with
        unread_groups := [sampleGroup]
        current_group_suspects := [sampleSuspect]
        current_group_plan := some { suspects := [], confirmed := false, note := none } }).state.all_suspects
      = [] ++ [sampleSuspect] :=
  C7_empty_plan_skip
    { initialPanelState with
        unread_groups := [sampleGroup]
        current_group_suspects := [sampleSuspect]
        current_group_plan := some { suspects := [], confirmed := false, note := none } }
    true { suspects := [], confirmed := false, note := none }
    (by decide) rfl rfl

/-- C1: for every processed step request, the worker trace writes status
`running` first (before the handler runs), then exactly one result-slot
write, then exactly one terminal status (`complete` or `error`); every
terminal status write is preceded by a result write, so a reader observing
a terminal status can always read the corresponding result payload — the
status write is the commit signal. -/
theorem C1_status_write_is_commit_signal :
    ∀ (request : StepRequestMsg) (outcome : Except String AgentResult),
      (process_request request outcome).head? = some (ChannelWrite.status "running")
      ∧ (∃ w t, process_request request outcome
            = [ChannelWrite.status "running", w, ChannelWrite.status t]
          ∧ isResultWrite w = true ∧ (t = "complete" ∨ t = "error"))
      ∧ (∀ i wi, (process_request request outcome).get? i = some wi →
          isTerminalStatus wi = true →
          ∃ j wj, j < i ∧ (process_request request outcome).get? j = some wj
            ∧ isResultWrite wj = true) := by
  intro request outcome
  unfold process_request
  by_cases hk : handler_known (request.step.getD "") = true
  · cases outcome with
    | ok r =>
      simp only [hk, if_true]
      exact ⟨rfl,
        ⟨ChannelWrite.resultOk r, "complete", rfl, rfl, Or.inl rfl⟩,
        trace3_commit (ChannelWrite.resultOk r) "complete" rfl⟩
    | error e =>
      simp only [hk, if_true]
      exact ⟨rfl,
        ⟨ChannelWrite.resultErr e, "error", rfl, rfl, Or.inr rfl⟩,
        trace3_commit (ChannelWrite.resultErr e) "error" rfl⟩
  · simp only [Bool.not_eq_true] at hk
    simp only [hk, Bool.false_eq_true, if_false]
    exact ⟨rfl,
      ⟨ChannelWrite.resultErr ("Unknown step: " ++ request.step.getD ""), "error",
        rfl, rfl, Or.inr rfl⟩,
      trace3_commit (ChannelWrite.resultErr ("Unknown step: " ++ request.step.getD ""))
        "error" rfl⟩

/-- C1 witness: at the concrete `classify` request with a successful
outcome, the terminal status at trace position 2 is preceded by the result
write at position 1. -/
theorem C1_status_write_is_commit_signal_witness :
    ∃ j wj, j < 2
      ∧ (process_request { step := some "classify" }
          (Except.ok { text := "done", screenshots := [] })).get? j = some wj
      ∧ isResultWrite wj = true :=
  (C1_status_write_is_commit_signal { step := some "classify" }
    (Except.ok { text := "done", screenshots := [] })).2.2 2
    (ChannelWrite.status "complete") rfl rfl

/-- C5 (amended): when the request file fails JSON parsing the worker
clears the request file and writes `Invalid request JSON: …` followed by
the `error` status (distinct from a step-handler error).  On the controller
side, however, a result under status `complete` that fails JSON parsing
raises an unhandled exception in the polling thread: the result/status
files are NOT deleted and no failure is surfaced to the operator. -/
theorem C5_malformed_payload_handling :
    (∀ (parseReq : String → Except String StepRequestMsg) (txt e : String)
       (outcome : Except String AgentResult),
      parseReq txt = Except.error e →
      run_loop_iteration (some txt) parseReq outcome
        = [WorkerEvent.clearRequest,
           WorkerEvent.write (ChannelWrite.resultErr ("Invalid request JSON: " ++ e)),
           WorkerEvent.write (ChannelWrite.status "error")])
    ∧ (∀ (jsonLoads : String → Option AgentResult) (rt : String),
       jsonLoads rt = none →
       poll_cycle jsonLoads (some "complete") (some rt) = PollOutcome.crashedUnhandled
       ∧ poll_deletes_files (poll_cycle jsonLoads (some "complete") (some rt)) = false
       ∧ poll_surfaces_failure (poll_cycle jsonLoads (some "complete") (some rt)) = false) := by
  constructor
  · intro parseReq txt e outcome hp
    simp [run_loop_iteration, hp]
  · intro jsonLoads rt hn
    have hcycle : poll_cycle jsonLoads (some "complete") (some rt)
        = PollOutcome.crashedUnhandled := by
      have hstrip : stripStr "complete" = "complete" := rfl
      simp [poll_cycle, hstrip, hn]
    exact ⟨hcycle, by rw [hcycle]; rfl, by rw [hcycle]; rfl⟩

/-- C5 counterexample: a concrete malformed result under status `complete`
is neither deleted nor surfaced — the polling thread dies on the uncaught
`json.JSONDecodeError` (the oracle returning `none` models `json.loads`
raising on the text `oops`), contradicting the claim that the offending
channel file is cleared and the failure surfaced. -/
theorem C5_counterexample_controller_crash :
    poll_cycle (fun _ => none) (some "complete") (some "oops")
      = PollOutcome.crashedUnhandled
    ∧ poll_deletes_files (poll_cycle (fun _ => none) (some "complete") (some "oops")) = false
    ∧ poll_surfaces_failure (poll_cycle (fun _ => none) (some "complete") (some "oops")) = false := by
  exact ⟨rfl, rfl, rfl⟩

/-- C5 witness: the worker branch at a concrete non-JSON request text, and
the controller branch at a concrete unparsable result. -/
theorem C5_malformed_payload_handling_witness :
    run_loop_iteration (some "not json") (fun _ => Except.error "Expecting value")
        (Except.ok { text := "", screenshots := [] })
      = [WorkerEvent.clearRequest,
         WorkerEvent.write (ChannelWrite.resultErr ("Invalid request JSON: " ++ "Expecting value")),
         WorkerEvent.write (ChannelWrite.status "error")]
    ∧ poll_cycle (fun _ => none) (some "complete") (some "nonsense")
        = PollOutcome.crashedUnhandled :=
  ⟨C5_malformed_payload_handling.1 (fun _ => Except.error "Expecting value")
      "not json" "Expecting value" (Except.ok { text := "", screenshots := [] }) rfl,
   (C5_malformed_payload_handling.2 (fun _ => none) "nonsense" rfl).1⟩

/-- C10: with groups loaded and the cursor in bounds, Extract reports
missing read data exactly when the stored read log for the current thread
is the two-character string seen at `logsGet … "{}"` — which is also the
default used when the log key is absent; any other stored text is handed to
the JSON parser, and a parse failure is reported as a parse error with the
state (in particular `current_group_suspects`) unchanged and nothing
persisted. -/
theorem C10_extract_missing_data_iff :
    ∀ (loadsPayload : String → Option SuspectsPayload)
      (loadsShots : String → Option (List String))
      (st : PanelState) (thread : GroupThread),
      st.unread_groups ≠ [] →
      st.unread_groups.get? st.current_thread_index = some thread →
      ((run_extract loadsPayload loadsShots st
          = some { state := st, report := PanelReport.missingData })
        ↔ logsGet st.step_logs ("read_" ++ thread.thread_id) "{}" = "{}")
      ∧ (∀ shotStrs : List String,
          logsGet st.step_logs ("read_" ++ thread.thread_id) "{}" ≠ "{}" →
          loadsShots (logsGet st.step_logs
            ("read_" ++ thread.thread_id ++ "_screenshots") "[]") = some shotStrs →
          loadsPayload (logsGet st.step_logs ("read_" ++ thread.thread_id) "{}") = none →
          run_extract loadsPayload loadsShots st
            = some { state := st, report := PanelReport.parseError }) := by
  intro f g st thread hne hget
  obtain ⟨hlt, hEq⟩ := List.get?_eq_some.mp hget
  constructor
  · constructor
    · intro hres
      by_contra htext
      unfold run_extract at hres
      rw [if_neg hne, dif_pos hlt] at hres
      dsimp only at hres
      rw [hEq, if_neg htext] at hres
      split at hres
      · exact Option.noConfusion hres
      · split at hres
        · simp only [Option.some.injEq, OpResult.mk.injEq] at hres
          exact PanelReport.noConfusion hres.2.1
        · simp only [Option.some.injEq, OpResult.mk.injEq] at hres
          exact PanelReport.noConfusion hres.2.1
    · intro htext
      unfold run_extract
      rw [if_neg hne, dif_pos hlt]
      dsimp only
      rw [hEq, if_pos htext]
  · intro shotStrs htext hshots hpayload
    unfold run_extract
    rw [if_neg hne, dif_pos hlt]
    dsimp only
    rw [hEq, if_neg htext, hshots]
    simp [extract_suspects, hpayload]

/-- C10 witness: with one loaded group and no stored read log, Extract
reports missing data; with a stored non-JSON read log, Extract reports a
parse error and leaves the state unchanged. -/
theorem C10_extract_missing_data_iff_witness :
    run_extract (fun _ => none) (fun _ => some [])
        { initialPanelState with unread_groups := [sampleGroup] }
      = some { state := { initialPanelState with unread_groups := [sampleGroup] },
               report := PanelReport.missingData }
    ∧ run_extract (fun _ => none) (fun _ => some [])
        { initialPanelState with
          unread_groups := [sampleGroup]
          step_logs := [("read_g1", "oops")] }
      = some { state := { initialPanelState with
                          unread_groups := [sampleGroup]
                          step_logs := [("read_g1", "oops")] },
               report := PanelReport.parseError } :=
  ⟨(C10_extract_missing_data_iff (fun _ => none) (fun _ => some [])
      { initialPanelState with unread_groups := [sampleGroup] } sampleGroup
      (by decide) rfl).1.mpr (by decide),
   (C10_extract_missing_data_iff (fun _ => none) (fun _ => some [])
      { initialPanelState with
        unread_groups := [sampleGroup]
        step_logs := [("read_g1", "oops")] } sampleGroup
      (by decide) rfl).2 [] (by decide) rfl rfl⟩

/-- C2: deserializing the result of serializing any `PanelState` (the
`_deserialize_state` of `_serialize_state`, as performed by `save_state`
followed by `load_state`) reproduces the state field-for-field — every
suspect avatar path, every plan confirmed flag and note, the cursor and all
step-log entries included.  The hypothesis `stateNormalized` records that
every stored avatar path is the canonical string of a `pathlib.Path` value,
which is automatic in the source because the field is `Path`-typed. -/
theorem C2_snapshot_roundtrip :
    ∀ st : PanelState, stateNormalized st →
      deserialize_state (serialize_state st) = st := by
  intro st h
  obtain ⟨h1, h2, h3, h4, h5, h6⟩ := h
  cases st with
  | mk threads unread_groups idx cgs cgp als alp sus pl logs =>
    simp only [deserialize_state, serialize_state, Option.getD_some]
    rw [thread_list_roundtrip threads, thread_list_roundtrip unread_groups,
        suspect_list_roundtrip cgs h1, plan_opt_roundtrip cgp h4,
        suspect_list_roundtrip als h2, plan_list_roundtrip alp h5,
        suspect_list_roundtrip sus h3, plan_opt_roundtrip pl h6]

/-- C2 witness: the round trip at a concrete state with non-empty
`all_plans` and `step_logs` (and a non-trivial cursor, plans and legacy
fields). -/
theorem C2_snapshot_roundtrip_witness :
    stateNormalized
      { threads := [sampleGroup, { name := "Chat", thread_id := "c1", unread := false, is_group := false }]
        unread_groups := [sampleGroup]
        current_thread_index := 1
        current_group_suspects := [sampleSuspect2]
        current_group_plan := some { suspects := [sampleSuspect2], confirmed := false, note := none }
        all_suspects := [sampleSuspect]
        all_plans := [{ suspects := [sampleSuspect], confirmed := true, note := some "removed 1" }]
        suspects := [sampleSuspect]
        plan := some { suspects := [sampleSuspect], confirmed := true, note := some "Processed 1 group(s)" }
        step_logs := [("read_g1", "hello"), ("removal_g1", "done")] }
    ∧ deserialize_state (serialize_state
      { threads := [sampleGroup, { name := "Chat", thread_id := "c1", unread := false, is_group := false }]
        unread_groups := [sampleGroup]
        current_thread_index := 1
        current_group_suspects := [sampleSuspect2]
        current_group_plan := some { suspects := [sampleSuspect2], confirmed := false, note := none }
        all_suspects := [sampleSuspect]
        all_plans := [{ suspects := [sampleSuspect], confirmed := true, note := some "removed 1" }]
        suspects := [sampleSuspect]
        plan := some { suspects := [sampleSuspect], confirmed := true, note := some "Processed 1 group(s)" }
        step_logs := [("read_g1", "hello"), ("removal_g1", "done")] })
      = { threads := [sampleGroup, { name := "Chat", thread_id := "c1", unread := false, is_group := false }]
          unread_groups := [sampleGroup]
          current_thread_index := 1
          current_group_suspects := [sampleSuspect2]
          current_group_plan := some { suspects := [sampleSuspect2], confirmed := false, note := none }
          all_suspects := [sampleSuspect]
          all_plans := [{ suspects := [sampleSuspect], confirmed := true, note := some "removed 1" }]
          suspects := [sampleSuspect]
          plan := some { suspects := [sampleSuspect], confirmed := true, note := some "Processed 1 group(s)" }
          step_logs := [("read_g1", "hello"), ("removal_g1", "done")] } :=
  ⟨by decide, C2_snapshot_roundtrip _ (by decide)⟩

/-- Every panel operation other than the manual read-results load preserves
the cursor bound. -/
theorem cursorInv_preserved (op : PanelOp) (st : PanelState)
    (hne : ∀ ts rs, op ≠ PanelOp.loadReadResultsOp ts rs)
    (hinv : cursorInv st) : cursorInv (applyOp op st).state := by
  cases op with
  | filterOp =>
    simp only [applyOp, run_filter]
    split
    · exact hinv
    · simp [cursorInv]
  | loadThreadsOp ts => simpa [applyOp, load_threads, cursorInv] using hinv
  | loadGroupsOp gs => simp [applyOp, load_groups, cursorInv]
  | loadReadResultsOp ts rs => exact absurd rfl (hne ts rs)
  | loadSuspectsOp ss => simpa [applyOp, load_suspects, cursorInv] using hinv
  | loadPlanOp p => simpa [applyOp, load_plan, cursorInv] using hinv
  | readStartOp worker =>
    simp only [applyOp, run_read_messages]
    split
    · exact hinv
    · split
      · exact hinv
      · split
        · simpa [cursorInv] using hinv
        · exact hinv
  | readResultOp text sj =>
    simp only [applyOp, on_read_result]
    split
    · simpa [cursorInv] using hinv
    · exact hinv
  | extractOp pp sp =>
    simp only [applyOp]
    cases hre : run_extract (fun _ => pp) (fun _ => sp) st with
    | none => simpa using hinv
    | some r =>
      have hp := run_extract_preserves _ _ _ _ hre
      simp only [Option.getD_some]
      unfold cursorInv
      rw [hp.2.1, hp.2.2.1]
      exact hinv
  | buildPlanOp =>
    simp only [applyOp, run_build_plan]
    split
    · split
      · exact hinv
      · simpa [cursorInv] using hinv
    · exact hinv
  | removalOp worker confirm =>
    cases worker with
    | false => simpa [applyOp, run_removal] using hinv
    | true =>
      simp only [applyOp, run_removal]
      rw [if_neg (fun hh => Bool.noConfusion hh)]
      split
      · rename_i h
        cases hplan : st.current_group_plan with
        | none => simpa [hplan] using hinv
        | some plan =>
          by_cases hs : plan.suspects = []
          · simp only [hplan]
            rw [if_pos hs]
            unfold cursorInv
            rw [advance_index, advance_groups]
            omega
          · cases confirm with
            | false =>
              simp only [hplan]
              rw [if_neg hs, if_pos trivial]
              unfold cursorInv
              rw [advance_index, advance_groups]
              omega
            | true =>
              simp only [hplan]
              rw [if_neg hs, if_neg (fun hh => Bool.noConfusion hh)]
              simpa [cursorInv] using hinv
      · exact hinv
  | removalResultOp text =>
    simp only [applyOp, on_removal_result]
    split
    · rename_i h
      unfold cursorInv
      rw [advance_index, advance_groups]
      simpa using h
    · exact hinv

/-- A panel operation reports workflow completion exactly when it advances
the cursor and the new cursor equals the group-list length. -/
theorem workflowComplete_iff (op : PanelOp) (st : PanelState) (hinv : cursorInv st) :
    (applyOp op st).report = PanelReport.workflowComplete ↔
      ((applyOp op st).state.current_thread_index = st.current_thread_index + 1
       ∧ (applyOp op st).state.current_thread_index
           = (applyOp op st).state.unread_groups.length) := by
  cases op with
  | filterOp =>
    simp only [applyOp, run_filter]
    split
    · refine iff_of_false (fun hh => PanelReport.noConfusion hh) ?_
      dsimp only
      omega
    · refine iff_of_false (fun hh => PanelReport.noConfusion hh) ?_
      dsimp only
      omega
  | loadThreadsOp ts =>
    refine iff_of_false (fun hh => PanelReport.noConfusion hh) ?_
    dsimp only [applyOp, load_threads]
    omega
  | loadGroupsOp gs =>
    refine iff_of_false (fun hh => PanelReport.noConfusion hh) ?_
    dsimp only [applyOp, load_groups]
    omega
  | loadReadResultsOp ts rs =>
    refine iff_of_false (fun hh => PanelReport.noConfusion hh) ?_
    dsimp only [applyOp, load_read_results]
    omega
  | loadSuspectsOp ss =>
    refine iff_of_false (fun hh => PanelReport.noConfusion hh) ?_
    dsimp only [applyOp, load_suspects]
    omega
  | loadPlanOp p =>
    refine iff_of_false (fun hh => PanelReport.noConfusion hh) ?_
    dsimp only [applyOp, load_plan]
    omega
  | readStartOp worker =>
    simp only [applyOp, run_read_messages]
    split
    · refine iff_of_false (fun hh => PanelReport.noConfusion hh) (by (try dsimp only); omega)
    · split
      · refine iff_of_false (fun hh => PanelReport.noConfusion hh) (by (try dsimp only); omega)
      · split
        · refine iff_of_false (fun hh => PanelReport.noConfusion hh) (by (try dsimp only); omega)
        · refine iff_of_false (fun hh => PanelReport.noConfusion hh) (by (try dsimp only); omega)
  | readResultOp text sj =>
    simp only [applyOp, on_read_result]
    split
    · refine iff_of_false (fun hh => PanelReport.noConfusion hh) (by (try dsimp only); omega)
    · refine iff_of_false (fun hh => PanelReport.noConfusion hh) (by (try dsimp only); omega)
  | extractOp pp sp =>
    simp only [applyOp]
    cases hre : run_extract (fun _ => pp) (fun _ => sp) st with
    | none =>
      simp only [hre, Option.getD_none]
      exact iff_of_false (fun hh => PanelReport.noConfusion hh) (by (try dsimp only); omega)
    | some r =>
      have hp := run_extract_preserves _ _ _ _ hre
      simp only [hre, Option.getD_some]
      refine iff_of_false hp.2.2.2 ?_
      rw [hp.2.1]
      omega
  | buildPlanOp =>
    simp only [applyOp, run_build_plan]
    split
    · split
      · refine iff_of_false (fun hh => PanelReport.noConfusion hh) (by (try dsimp only); omega)
      · refine iff_of_false (fun hh => PanelReport.noConfusion hh) (by (try dsimp only); omega)
    · refine iff_of_false (fun hh => PanelReport.noConfusion hh) (by (try dsimp only); omega)
  | removalOp worker confirm =>
    cases worker with
    | false =>
      refine iff_of_false (fun hh => PanelReport.noConfusion hh) ?_
      simp only [applyOp, run_removal]
      rw [if_pos trivial]
      (try dsimp only); omega
    | true =>
      simp only [applyOp, run_removal]
      rw [if_neg (fun hh => Bool.noConfusion hh)]
      split
      · rename_i h
        cases hplan : st.current_group_plan with
        | none =>
          simp only [hplan]
          refine iff_of_false (fun hh => PanelReport.noConfusion hh) (by (try dsimp only); omega)
        | some plan =>
          by_cases hs : plan.suspects = []
          · simp only [hplan]
            rw [if_pos hs]
            dsimp only
            rw [advance_report, advance_index, advance_groups]
            split
            · rename_i hc
              exact iff_of_false (fun hh => PanelReport.noConfusion hh) (by omega)
            · rename_i hc
              exact iff_of_true rfl ⟨rfl, by omega⟩
          · cases confirm with
            | false =>
              simp only [hplan]
              rw [if_neg hs, if_pos trivial]
              dsimp only
              rw [advance_report, advance_index, advance_groups]
              split
              · rename_i hc
                exact iff_of_false (fun hh => PanelReport.noConfusion hh) (by omega)
              · rename_i hc
                exact iff_of_true rfl ⟨rfl, by omega⟩
            | true =>
              simp only [hplan]
              rw [if_neg hs, if_neg (fun hh => Bool.noConfusion hh)]
              refine iff_of_false (fun hh => PanelReport.noConfusion hh) (by (try dsimp only); omega)
      · refine iff_of_false (fun hh => PanelReport.noConfusion hh) (by (try dsimp only); omega)
  | removalResultOp text =>
    simp only [applyOp, on_removal_result]
    split
    · rename_i h
      dsimp only
      rw [advance_report, advance_index, advance_groups]
      dsimp only
      split
      · rename_i hc
        exact iff_of_false (fun hh => PanelReport.noConfusion hh) (by omega)
      · rename_i hc
        exact iff_of_true rfl ⟨rfl, by omega⟩
    · refine iff_of_false (fun hh => PanelReport.noConfusion hh) (by (try dsimp only); omega)

/-- C3 (amended): starting from any state satisfying it, the cursor
invariant `current_thread_index ≤ len(unread_groups)` is preserved by every
panel operation EXCEPT the manual read-results load, which replaces
`unread_groups` without resetting the cursor; and an operation reports
workflow completion exactly when it advances the cursor onto the group-list
length — since only advances move the cursor, completion is reported
exactly once per traversed pass. -/
theorem C3_cursor_invariant :
    (∀ (op : PanelOp) (st : PanelState),
      (∀ ts rs, op ≠ PanelOp.loadReadResultsOp ts rs) →
      cursorInv st → cursorInv (applyOp op st).state)
    ∧ (∀ (op : PanelOp) (st : PanelState), cursorInv st →
      ((applyOp op st).report = PanelReport.workflowComplete ↔
        ((applyOp op st).state.current_thread_index = st.current_thread_index + 1
         ∧ (applyOp op st).state.current_thread_index
             = (applyOp op st).state.unread_groups.length))) :=
  ⟨cursorInv_preserved, workflowComplete_iff⟩

/-- C3 counterexample: a reachable operator sequence breaks the claimed
invariant.  From the fresh state: manually load one group, manually load an
empty plan, run Remove (worker alive; the empty plan advances the cursor to
1), then manually load read results whose thread list is empty — the cursor
stays 1 while `unread_groups` becomes empty, so 1 ≤ 0 fails. -/
theorem C3_counterexample_load_read_results :
    ¬ cursorInv (runOps
      [PanelOp.loadGroupsOp [sampleGroupJson],
       PanelOp.loadPlanOp { suspects := [], confirmed := false, note := some "" },
       PanelOp.removalOp true true,
       PanelOp.loadReadResultsOp [] []] initialPanelState) := by
  decide

/-- C3 witness: invariant preservation at a concrete non-excluded operation
from the fresh state, and the completion-report equivalence at a concrete
advancing Remove on the last group. -/
theorem C3_cursor_invariant_witness :
    cursorInv (applyOp PanelOp.buildPlanOp initialPanelState).state
    ∧ ((applyOp (PanelOp.removalOp true true)
          { initialPanelState with
            unread_groups := [sampleGroup]
            current_group_plan := some { suspects := [], confirmed := false, note := none } }).report
        = PanelReport.workflowComplete ↔
      ((applyOp (PanelOp.removalOp true true)
          { initialPanelState with
            unread_groups := [sampleGroup]
            current_group_plan := some { suspects := [], confirmed := false, note := none } }).state.current_thread_index
          = ({ initialPanelState with
               unread_groups := [sampleGroup]
               current_group_plan := some { suspects := [], confirmed := false, note := none } } : PanelState).current_thread_index + 1
        ∧ (applyOp (PanelOp.removalOp true true)
            { initialPanelState with
              unread_groups := [sampleGroup]
              current_group_plan := some { suspects := [], confirmed := false, note := none } }).state.current_thread_index
            = (applyOp (PanelOp.removalOp true true)
                { initialPanelState with
                  unread_groups := [sampleGroup]
                  current_group_plan := some { suspects := [], confirmed := false, note := none } }).state.unread_groups.length)) :=
  ⟨C3_cursor_invariant.1 PanelOp.buildPlanOp initialPanelState
      (fun ts rs hh => PanelOp.noConfusion hh) (by decide),
   C3_cursor_invariant.2 (PanelOp.removalOp true true)
      { initialPanelState with
        unread_groups := [sampleGroup]
        current_group_plan := some { suspects := [], confirmed := false, note := none } }
      (by decide)⟩

/-- C4: an Advance with a stored per-group plan (as at every call site)
appends `current_group_suspects` to `all_suspects` and the plan to
`all_plans`, rebuilds the legacy merged plan as the concatenation of all
accumulated plans with `confirmed = true` and a note stating the group
count, mirrors the legacy suspects copy, clears both ephemeral fields and
increments the cursor by exactly 1; the advancing Remove branches persist
the advanced state; and over any operation sequence `all_suspects` equals
the old value followed by the concatenated per-advance contributions, so
its length is the sum of the recorded contribution lengths and appended
entries are never removed or reordered. -/
theorem C4_advance_accumulation :
    (∀ (st : PanelState) (p : RemovalPlan), st.current_group_plan = some p →
      (advance_to_next_group st).1.all_suspects
          = st.all_suspects ++ st.current_group_suspects
      ∧ (advance_to_next_group st).1.all_plans = st.all_plans ++ [p]
      ∧ (advance_to_next_group st).1.plan
          = some { suspects := ((st.all_plans ++ [p]).map (fun q => q.suspects)).flatten,
                   confirmed := true,
                   note := some ("Processed " ++ toString (st.all_plans ++ [p]).length
                     ++ " group(s)") }
      ∧ (advance_to_next_group st).1.suspects
          = st.all_suspects ++ st.current_group_suspects
      ∧ (advance_to_next_group st).1.current_group_suspects = []
      ∧ (advance_to_next_group st).1.current_group_plan = none
      ∧ (advance_to_next_group st).1.current_thread_index
          = st.current_thread_index + 1)
    ∧ (∀ (st : PanelState) (confirm : Bool) (p : RemovalPlan),
        st.current_thread_index < st.unread_groups.length →
        st.current_group_plan = some p →
        (p.suspects = [] ∨ confirm = false) →
        (run_removal true confirm st).saves = [(advance_to_next_group st).1])
    ∧ (∀ (ops : List PanelOp) (st : PanelState),
        (runOps ops st).all_suspects = st.all_suspects ++ seqContribution ops st)
    ∧ (∀ (ops : List PanelOp) (st : PanelState),
        (runOps ops st).all_suspects.length
          = st.all_suspects.length + (seqContribution ops st).length) := by
  refine ⟨?_, ?_, runOps_all_suspects, ?_⟩
  · intro st p hp
    refine ⟨rfl, ?_, ?_, rfl, rfl, rfl, rfl⟩
    · simp [advance_to_next_group, hp, Option.toList]
    · simp [advance_to_next_group, hp, Option.toList]
  · intro st confirm p hidx hp hcase
    rcases hcase with he | hc
    · simp [run_removal, hidx, hp, he]
    · by_cases hs : p.suspects = []
      · simp [run_removal, hidx, hp, hs]
      · simp [run_removal, hidx, hp, hs, hc]
  · intro ops st
    rw [runOps_all_suspects, List.length_append]

/-- C4 witness: the advance equations at a concrete state with one
accumulated plan and one stored plan, the persisted advance at a concrete
empty-plan Remove, and the sequence accumulation at a concrete two-step
sequence ending in an advancing Remove. -/
theorem C4_advance_accumulation_witness :
    (advance_to_next_group
        { initialPanelState with
          unread_groups := [sampleGroup]
          current_group_suspects := [sampleSuspect]
          current_group_plan := some { suspects := [sampleSuspect], confirmed := true, note := none } }).1.all_plans
      = [] ++ [{ suspects := [sampleSuspect], confirmed := true, note := none }]
    ∧ (run_removal true false
        { initialPanelState with
          unread_groups := [sampleGroup]
          current_group_plan := some { suspects := [sampleSuspect2], confirmed := false, note := none } }).saves
      = [(advance_to_next_group
          { initialPanelState with
            unread_groups := [sampleGroup]
            current_group_plan := some { suspects := [sampleSuspect2], confirmed := false, note := none } }).1]
    ∧ (runOps [PanelOp.loadSuspectsOp [sampleSuspect], PanelOp.removalOp true true]
        { initialPanelState with
          unread_groups := [sampleGroup]
          current_group_plan := some { suspects := [], confirmed := false, note := none } }).all_suspects
      = ({ initialPanelState with
           unread_groups := [sampleGroup]
           current_group_plan := some { suspects := [], confirmed := false, note := none } } : PanelState).all_suspects
        ++ seqContribution [PanelOp.loadSuspectsOp [sampleSuspect], PanelOp.removalOp true true]
          { initialPanelState with
            unread_groups := [sampleGroup]
            current_group_plan := some { suspects := [], confirmed := false, note := none } } :=
  ⟨(C4_advance_accumulation.1
      { initialPanelState with
        unread_groups := [sampleGroup]
        current_group_suspects := [sampleSuspect]
        current_group_plan := some { suspects := [sampleSuspect], confirmed := true, note := none } }
      { suspects := [sampleSuspect], confirmed := true, note := none } rfl).2.1,
   C4_advance_accumulation.2.1
      { initialPanelState with
        unread_groups := [sampleGroup]
        current_group_plan := some { suspects := [sampleSuspect2], confirmed := false, note := none } }
      false { suspects := [sampleSuspect2], confirmed := false, note := none }
      (by decide) rfl (Or.inr rfl),
   C4_advance_accumulation.2.2.1
      [PanelOp.loadSuspectsOp [sampleSuspect], PanelOp.removalOp true true]
      { initialPanelState with
        unread_groups := [sampleGroup]
        current_group_plan := some { suspects := [], confirmed := false, note := none } }⟩
